import Mathlib

/-!
Shallow embedding of the pixel-craft image optimization service
(`src/image_processor.py`, `src/routes.py`, `src/config.py`, `src/cleanup.py`).

Conventions of the embedding:
* Machine integers are `Nat`/`Int`; Python float arithmetic that the code
  performs on exact decimal inputs is modelled over `ℚ` (the rounding step
  `round(x, 2)` is modelled with Python's round-half-to-even semantics).
* A PIL image is modelled as a color mode, dimensions, a pixel function
  (each pixel an RGBA quadruple; single-band images store the band in all
  channels), a palette (used in mode `P`), an optional raw EXIF blob and an
  EXIF orientation tag.  Library-internal resampling/sharpening kernels are
  not pinned down by the repository; they are modelled as dimension/mode
  faithful transforms, which is all the pipeline's observable output
  depends on.
* Fallible library calls (file stat, decode, resize, filter, encode) are
  driven by an `Env` of oracles, each either succeeding or raising a message,
  mirroring Python exceptions; `optimize_image`'s `try/except` becomes a
  `match` on the `Except`-valued pipeline.
-/

namespace PixelCraft

/-- PIL color modes that appear in the code (`'RGB'`, `'RGBA'`, `'LA'`,
`'L'`, `'P'`, `'CMYK'`). -/
inductive Mode where
  | RGB | RGBA | LA | L | P | CMYK
deriving DecidableEq, Repr

/-- Whether a mode carries an alpha channel. -/
def Mode.hasAlpha : Mode → Bool
  | .RGBA => true
  | .LA => true
  | _ => false

/-- One pixel, as an RGBA quadruple of 8-bit channel values. -/
structure Pixel where
  r : Nat
  g : Nat
  b : Nat
  a : Nat
deriving DecidableEq, Repr

/-- The white opaque pixel `(255, 255, 255)` used as flattening background. -/
def whitePx : Pixel := ⟨255, 255, 255, 255⟩

/-- Model of a PIL `Image`: mode, size, pixel buffer, palette (meaningful in
mode `P`, where `px` stores the palette index in every channel), the raw
EXIF blob held in `img.info['exif']`, and the EXIF orientation tag
(`1` meaning "no transform"). -/
structure PILImage where
  format : String
  mode : Mode
  width : Nat
  height : Nat
  px : Nat → Nat → Pixel
  palette : Nat → Pixel
  exifBytes : Option String
  orientation : Nat

/-- `Image.new('RGB', (w, h), color)`. -/
def PILImage.newRGB (w h : Nat) (c : Pixel) : PILImage :=
  { format := "", mode := .RGB, width := w, height := h,
    px := fun _ _ => c, palette := fun _ => c,
    exifBytes := none, orientation := 1 }

/-- `img.convert(target)` for the conversions the code performs:
palette expansion (`P → RGBA`, `P → RGB`) and dropping alpha / widening to
`RGB`.  Other channel arithmetic is library-internal and immaterial here. -/
def PILImage.convertTo (img : PILImage) (m : Mode) : PILImage :=
  match img.mode, m with
  | .P, .RGBA => { img with mode := .RGBA, px := fun x y => img.palette (img.px x y).r }
  | .P, .RGB =>
      { img with
          mode := .RGB
          px := fun x y => { img.palette (img.px x y).r with a := 255 } }
  | _, .RGB => { img with mode := .RGB, px := fun x y => { img.px x y with a := 255 } }
  | _, _ => { img with mode := m }

/-- `img.split()[-1]`: the last band as a single-band (`L`) image.  For the
alpha-carrying modes this is the alpha channel; for `RGB` the blue band. -/
def PILImage.lastBand (img : PILImage) : PILImage :=
  let band : Pixel → Nat :=
    match img.mode with
    | .RGBA => Pixel.a
    | .LA => Pixel.a
    | .RGB => Pixel.b
    | _ => Pixel.r
  { img with
      mode := .L
      px := fun x y => let v := band (img.px x y); ⟨v, v, v, 255⟩ }

/-- Linear blend of one channel under a mask value `m ∈ [0, 255]`. -/
def blendCh (bg src m : Nat) : Nat := (bg * (255 - m) + src * m) / 255

/-- `bg.paste(src, mask)` over the full canvas (the two images have equal
size at the call site).  With no mask the source is copied; with an `L`
mask each channel is blended linearly.  The background's alpha (255 for the
`RGB` canvas the code creates) is kept. -/
def PILImage.paste (bg src : PILImage) (mask : Option PILImage) : PILImage :=
  { bg with px := fun x y =>
      match mask with
      | none => src.px x y
      | some msk =>
          let m := (msk.px x y).r
          let b := bg.px x y
          let s := src.px x y
          ⟨blendCh b.r s.r m, blendCh b.g s.g m, blendCh b.b s.b m, b.a⟩ }

/-- `img.info = {}`: strip all non-pixel metadata. -/
def PILImage.clearInfo (img : PILImage) : PILImage :=
  { img with exifBytes := none }

/-- `ImageOps.exif_transpose(img)`: rotate/flip according to the EXIF
orientation tag and drop the tag.  Orientations 5–8 swap width and height. -/
def exifTranspose (img : PILImage) : PILImage :=
  let w := img.width
  let h := img.height
  match img.orientation with
  | 2 => { img with px := fun x y => img.px (w - 1 - x) y, orientation := 1 }
  | 3 => { img with px := fun x y => img.px (w - 1 - x) (h - 1 - y), orientation := 1 }
  | 4 => { img with px := fun x y => img.px x (h - 1 - y), orientation := 1 }
  | 5 => { img with width := h, height := w, px := fun x y => img.px y x, orientation := 1 }
  | 6 =>
      { img with
          width := h
          height := w
          px := fun x y => img.px y (h - 1 - x)
          orientation := 1 }
  | 7 =>
      { img with
          width := h
          height := w
          px := fun x y => img.px (w - 1 - y) (h - 1 - x)
          orientation := 1 }
  | 8 =>
      { img with
          width := h
          height := w
          px := fun x y => img.px (w - 1 - y) x
          orientation := 1 }
  | _ => img

/-- `img.resize((w, h), Image.LANCZOS)`: the pipeline fixes the target
dimensions; the Lanczos kernel itself is library-internal, modelled as a
coordinate rescale. -/
def PILImage.resizeTo (img : PILImage) (w h : Nat) : PILImage :=
  { img with
      width := w
      height := h
      px := fun x y => img.px (x * img.width / max w 1) (y * img.height / max h 1) }

/-! ### String helpers: `str.upper()`, `str.lower()`, `os.path.splitext` -/

def strUpper (s : String) : String := String.mk (s.toList.map Char.toUpper)

def strLower (s : String) : String := String.mk (s.toList.map Char.toLower)

/-- Index of the last occurrence of `c` in `cs`. -/
def lastIndexOf (c : Char) (cs : List Char) : Option Nat :=
  (cs.enum).foldl (fun acc p => if p.2 = c then some p.1 else acc) none

/-- `os.path.splitext` (posix): split off the extension at the last dot,
provided it lies after the last path separator and some non-dot character
of the basename precedes it. -/
def splitext (s : String) : String × String :=
  let cs := s.toList
  let start := ((lastIndexOf '/' cs).map (· + 1)).getD 0
  match lastIndexOf '.' cs with
  | none => (s, "")
  | some i =>
      if start ≤ i ∧ ((cs.drop start).take (i - start)).any (fun c => c ≠ '.') then
        (String.mk (cs.take i), String.mk (cs.drop i))
      else (s, "")

/-! ### Configuration (`src/config.py`) -/

/-- One entry of `Config.PRESETS`; every key is read with `dict.get` and a
default, hence the `Option` fields. -/
structure PresetCfg where
  jpeg_quality : Option Nat
  webp_quality : Option Nat
  png_compress_level : Option Nat
  webp_method : Option Nat
deriving DecidableEq, Repr

/-- The configuration surface `optimize_image`, the routes and the cleaner
read from `current_app.config`. -/
structure Config where
  DEFAULT_QUALITY : Nat
  MIN_QUALITY : Nat
  MAX_QUALITY : Nat
  DEFAULT_RESIZE_PERCENT : Nat
  MIN_RESIZE_PERCENT : Nat
  MAX_RESIZE_PERCENT : Nat
  STRIP_METADATA_DEFAULT : Bool
  AUTO_ORIENT_DEFAULT : Bool
  SHARPEN_DEFAULT : Nat
  MIN_SHARPEN : Nat
  MAX_SHARPEN : Nat
  OUTPUT_FORMATS : List String
  OUTPUT_FORMAT_DEFAULT : String
  PRESETS : List (String × PresetCfg)
  DEFAULT_PRESET : String
  CLEANUP_AGE_SECONDS : Nat

/-- The concrete values of `src/config.py`. -/
def appConfig : Config :=
  { DEFAULT_QUALITY := 85
    MIN_QUALITY := 1
    MAX_QUALITY := 95
    DEFAULT_RESIZE_PERCENT := 100
    MIN_RESIZE_PERCENT := 10
    MAX_RESIZE_PERCENT := 200
    STRIP_METADATA_DEFAULT := true
    AUTO_ORIENT_DEFAULT := true
    SHARPEN_DEFAULT := 0
    MIN_SHARPEN := 0
    MAX_SHARPEN := 100
    OUTPUT_FORMATS := ["same", "jpeg", "png", "webp"]
    OUTPUT_FORMAT_DEFAULT := "same"
    PRESETS :=
      [("speed", ⟨some 90, some 90, some 6, some 4⟩),
       ("balanced", ⟨some 85, some 85, some 9, some 6⟩),
       ("max_quality", ⟨some 95, some 95, some 9, some 6⟩)]
    DEFAULT_PRESET := "balanced"
    CLEANUP_AGE_SECONDS := 3600 }

/-- `current_app.config['PRESETS'].get(preset, PRESETS['balanced'])`.
(The fallback of the fallback is never reached for `appConfig`, which does
contain a `"balanced"` entry.) -/
def presetSettings (cfg : Config) (name : String) : PresetCfg :=
  match cfg.PRESETS.find? (fun p => p.1 = name) with
  | some p => p.2
  | none =>
      match cfg.PRESETS.find? (fun p => p.1 = "balanced") with
      | some p => p.2
      | none => ⟨none, none, none, none⟩

/-! ### Python `round(x, 2)` on exact decimals: round half to even. -/

/-- Round to the nearest integer, ties to even (Python `round`). -/
def roundHalfEven (q : ℚ) : ℤ :=
  let f := ⌊q⌋
  let r := q - f
  if r < 1 / 2 then f
  else if 1 / 2 < r then f + 1
  else if f % 2 = 0 then f else f + 1

/-- `round(q, 2)`. -/
def pyRound2 (q : ℚ) : ℚ := (roundHalfEven (q * 100) : ℚ) / 100

/-! ### The pipeline (`src/image_processor.py`, `ImageOptimizer`) -/

/-- Oracles for the fallible library/filesystem calls inside
`optimize_image`'s `try` block.  `some msg` means the call raises an
exception with message `msg`. -/
structure Env where
  /-- `os.path.getsize(input_path)`. -/
  getsizeIn : Except String Nat
  /-- `Image.open(input_path)` plus the implicit load. -/
  decode : Except String PILImage
  /-- whether `img.resize` raises. -/
  resizeFail : Option String
  /-- whether `img.filter(ImageFilter.UnsharpMask(...))` raises. -/
  unsharpFail : Option String
  /-- whether the fallback `img.filter(ImageFilter.SHARPEN)` raises. -/
  basicSharpenFail : Option String
  /-- whether `img.save(...)` raises. -/
  saveFail : Option String
  /-- `os.path.getsize(output_path)` after the save. -/
  getsizeOut : Except String Nat

/-- The `options` dict passed to `optimize_image`; a `none` field is an
absent key, resolved against the configured default by `dict.get`. -/
structure Options where
  quality : Option Nat := none
  resize_percent : Option Nat := none
  strip_metadata : Option Bool := none
  auto_orient : Option Bool := none
  preset : Option String := none
  sharpen : Option Nat := none
  output_format : Option String := none

/-- The success dictionary `optimize_image` returns (all keys, in source
order). -/
structure SuccessRecord where
  original_size : Nat
  optimized_size : Nat
  reduction_bytes : ℤ
  reduction_percent : ℚ
  format : String
  output_format : String
  format_converted : Bool
  original_width : Nat
  original_height : Nat
  width : Nat
  height : Nat
  mode : Mode
  resized : Bool
  metadata_stripped : Bool
  auto_oriented : Bool
  preset : String
  quality_used : Option Nat
  sharpened : Bool
  sharpen_amount : Nat
deriving DecidableEq, Repr

/-- The tagged result of `optimize_image`: the success dictionary, or the
failure dictionary `{'success': False, 'error': str(e)}`, which carries
the error description and nothing else. -/
inductive OptResult where
  | ok (r : SuccessRecord)
  | err (error : String)
deriving DecidableEq, Repr

/-- The file write performed by the encoder helpers (`img.save(...)`):
destination path, the image object actually encoded, the format string,
and the `exif` keyword if attached. -/
structure WriteEvent where
  path : String
  image : PILImage
  format : String
  exif : Option String

/-- The settings dictionary returned by `_optimize_jpeg` / `_optimize_png`
/ `_optimize_webp`. -/
inductive EncReport where
  | jpeg (quality : Nat) (progressive optimize : Bool)
  | png (optimize : Bool) (compress_level : Nat)
  | webp (quality method : Nat)
deriving DecidableEq, Repr

/-- `preset_settings.get('jpeg_quality', quality)` in `_optimize_jpeg`. -/
def jpegQualityOf (ps : PresetCfg) (quality : Nat) : Nat :=
  ps.jpeg_quality.getD quality

/-- `preset_settings.get('webp_quality', quality)` in `_optimize_webp`. -/
def webpQualityOf (ps : PresetCfg) (quality : Nat) : Nat :=
  ps.webp_quality.getD quality

/-- `ImageOptimizer._optimize_jpeg`: take the preset quality (falling back
to the raw quality), coerce the image to RGB if needed, save as JPEG with
`optimize=True, progressive=True`. -/
def optimizeJpeg (env : Env) (img : PILImage) (output_path : String)
    (quality : Nat) (ps : PresetCfg) (exif : Option String) :
    Except String (WriteEvent × EncReport) :=
  let jpeg_quality := jpegQualityOf ps quality
  let img := if img.mode ≠ Mode.RGB then img.convertTo Mode.RGB else img
  match env.saveFail with
  | some m => .error m
  | none => .ok (⟨output_path, img, "JPEG", exif⟩, .jpeg jpeg_quality true true)

/-- `ImageOptimizer._optimize_png`: save as PNG with `optimize=True` and the
preset compress level (default 9). -/
def optimizePng (env : Env) (img : PILImage) (output_path : String)
    (ps : PresetCfg) (exif : Option String) :
    Except String (WriteEvent × EncReport) :=
  let compress_level := ps.png_compress_level.getD 9
  match env.saveFail with
  | some m => .error m
  | none => .ok (⟨output_path, img, "PNG", exif⟩, .png true compress_level)

/-- `ImageOptimizer._optimize_webp`: save as WebP with the preset quality
(falling back to the raw quality) and the preset method (default 6). -/
def optimizeWebp (env : Env) (img : PILImage) (output_path : String)
    (quality : Nat) (ps : PresetCfg) (exif : Option String) :
    Except String (WriteEvent × EncReport) :=
  let webp_quality := webpQualityOf ps quality
  let webp_method := ps.webp_method.getD 6
  match env.saveFail with
  | some m => .error m
  | none => .ok (⟨output_path, img, "WEBP", exif⟩, .webp webp_quality webp_method)

/-- `ImageOptimizer._apply_sharpening`: UnsharpMask with
`radius = amount/100*2.5`, `percent = int(50 + amount/100*100)`,
`threshold = int(amount/100*3)`; on failure of the filter, fall back to the
basic `SHARPEN` filter (whose own failure propagates).  The kernels are
library-internal; the parameters are the pipeline's contribution. -/
def applySharpening (env : Env) (img : PILImage) (sharpen_amount : Nat) :
    Except String PILImage :=
  if sharpen_amount ≤ 0 then .ok img
  else
    let radius : ℚ := (sharpen_amount : ℚ) / 100 * 5 / 2
    let percent : Nat := 50 + sharpen_amount
    let threshold : Nat := sharpen_amount * 3 / 100
    match env.unsharpFail with
    | none => .ok (unsharpMaskFilter img radius percent threshold)
    | some _ =>
        match env.basicSharpenFail with
        | none => .ok (basicSharpenFilter img)
        | some m => .error m
where
  /-- `img.filter(ImageFilter.UnsharpMask(...))`: mode- and size-preserving
  convolution; the kernel itself is library behavior. -/
  unsharpMaskFilter (img : PILImage) (_radius : ℚ) (_percent _threshold : Nat) :
      PILImage :=
    { img with px := img.px }
  /-- `img.filter(ImageFilter.SHARPEN)`. -/
  basicSharpenFilter (img : PILImage) : PILImage :=
    { img with px := img.px }

/-- Lines 95–102 of `optimize_image`: flatten transparency onto an opaque
white background before JPEG encoding.  Palette images are expanded to
RGBA first; alpha-carrying modes paste with their last band (the alpha
channel) as mask, others with no mask. -/
def flattenForJpeg (img : PILImage) : PILImage :=
  let rgb_img := PILImage.newRGB img.width img.height whitePx
  let img := if img.mode = Mode.P then img.convertTo Mode.RGBA else img
  let mask :=
    if img.mode = Mode.RGBA ∨ img.mode = Mode.LA then some img.lastBand else none
  rgb_img.paste img mask

/-- The body of `optimize_image`'s `try` block, as an `Except`-valued
pipeline mirroring the source's sequential statements.  On success it
yields the result dictionary together with the write event and the
encoder's settings dictionary (bound to `result` in the source and then
discarded). -/
def optimizeImageAux (cfg : Config) (env : Env) (output_path : String)
    (opts : Options) : Except String (SuccessRecord × WriteEvent × EncReport) := do
  let quality := opts.quality.getD cfg.DEFAULT_QUALITY
  let resize_percent := opts.resize_percent.getD cfg.DEFAULT_RESIZE_PERCENT
  let strip_metadata := opts.strip_metadata.getD cfg.STRIP_METADATA_DEFAULT
  let auto_orient := opts.auto_orient.getD cfg.AUTO_ORIENT_DEFAULT
  let preset := opts.preset.getD cfg.DEFAULT_PRESET
  let sharpen := opts.sharpen.getD cfg.SHARPEN_DEFAULT
  let output_format := opts.output_format.getD cfg.OUTPUT_FORMAT_DEFAULT
  let preset_settings := presetSettings cfg preset
  let original_size ← env.getsizeIn
  let img0 ← env.decode
  let original_format := img0.format
  let original_mode := img0.mode
  let exif_data := if ¬strip_metadata then img0.exifBytes else none
  let img1 := if auto_orient then exifTranspose img0 else img0
  let img2 := if strip_metadata then img1.clearInfo else img1
  let original_width := img2.width
  let original_height := img2.height
  let rs ←
    (if resize_percent ≠ 100 then
      let new_width := original_width * resize_percent / 100
      let new_height := original_height * resize_percent / 100
      match env.resizeFail with
      | some m => Except.error m
      | none => Except.ok (new_width, new_height, img2.resizeTo new_width new_height)
    else Except.ok (original_width, original_height, img2))
  let new_width := rs.1
  let new_height := rs.2.1
  let img4 ← (if sharpen > 0 then applySharpening env rs.2.2 sharpen else Except.ok rs.2.2)
  let target_format :=
    if output_format = "same" then original_format else strUpper output_format
  let out_path :=
    if output_format = "same" then output_path
    else (splitext output_path).1 ++ "." ++ output_format
  let img5 :=
    if target_format = "JPEG" ∧
        (img4.mode = Mode.RGBA ∨ img4.mode = Mode.LA ∨ img4.mode = Mode.P) then
      flattenForJpeg img4
    else img4
  let img6 := if strip_metadata then img5.clearInfo else img5
  let save_exif :=
    if ¬strip_metadata ∧ exif_data.isSome ∧ target_format = original_format then
      exif_data
    else none
  let enc ←
    (if target_format = "JPEG" ∨ target_format = "JPG" then
      optimizeJpeg env img6 out_path quality preset_settings save_exif
    else if target_format = "PNG" then
      optimizePng env img6 out_path preset_settings save_exif
    else if target_format = "WEBP" then
      optimizeWebp env img6 out_path quality preset_settings save_exif
    else
      optimizeJpeg env img6 out_path quality preset_settings save_exif)
  let optimized_size ← env.getsizeOut
  let reduction_bytes : ℤ := (original_size : ℤ) - (optimized_size : ℤ)
  let reduction_percent : ℚ :=
    if original_size > 0 then (reduction_bytes : ℚ) / (original_size : ℚ) * 100
    else 0
  let res : SuccessRecord :=
    { original_size := original_size
      optimized_size := optimized_size
      reduction_bytes := reduction_bytes
      reduction_percent := pyRound2 reduction_percent
      format := original_format
      output_format := target_format
      format_converted := output_format ≠ "same"
      original_width := original_width
      original_height := original_height
      width := new_width
      height := new_height
      mode := original_mode
      resized := resize_percent ≠ 100
      metadata_stripped := strip_metadata
      auto_oriented := auto_orient
      preset := preset
      quality_used :=
        if target_format = "JPEG" ∨ target_format = "WEBP" then some quality
        else none
      sharpened := sharpen > 0
      sharpen_amount := sharpen }
  return (res, enc.1, enc.2)

/-- `ImageOptimizer.optimize_image`: run the pipeline; the surrounding
`try/except Exception` turns any raised error into the tagged failure
dictionary, so nothing propagates past the boundary. -/
def optimize_image (cfg : Config) (env : Env) (output_path : String)
    (opts : Options) : OptResult :=
  match optimizeImageAux cfg env output_path opts with
  | .ok (r, _, _) => .ok r
  | .error e => .err e

/-- The destination-file write of a successful run (the side effect of the
encoder's `img.save`). -/
def optimizeWrite (cfg : Config) (env : Env) (output_path : String)
    (opts : Options) : Option WriteEvent :=
  match optimizeImageAux cfg env output_path opts with
  | .ok (_, w, _) => some w
  | .error _ => none

/-- The encoder settings dictionary of a successful run. -/
def optimizeReport (cfg : Config) (env : Env) (output_path : String)
    (opts : Options) : Option EncReport :=
  match optimizeImageAux cfg env output_path opts with
  | .ok (_, _, rep) => some rep
  | .error _ => none

/-! Projections used to state concrete facts about an `OptResult`. -/

def OptResult.success : OptResult → Bool
  | .ok _ => true
  | .err _ => false

def OptResult.qualityUsed : OptResult → Option (Option Nat)
  | .ok r => some r.quality_used
  | .err _ => none

def OptResult.modeOf : OptResult → Option Mode
  | .ok r => some r.mode
  | .err _ => none

def OptResult.originalWidth : OptResult → Option Nat
  | .ok r => some r.original_width
  | .err _ => none

def OptResult.originalHeight : OptResult → Option Nat
  | .ok r => some r.original_height
  | .err _ => none

def OptResult.formatConverted : OptResult → Option Bool
  | .ok r => some r.format_converted
  | .err _ => none

/-! ### Option parsing and clamping (`src/routes.py`, `upload_image` /
`reoptimize_image`, lines 153–180) -/

/-- The raw form fields of a request, after `int()` parsing succeeded for
the numeric ones (a non-integer string raises `ValueError` and yields an
HTTP 400 before any option is used, outside the scope modelled here).
`none` is an absent field, replaced by the configured default. -/
structure RawForm where
  quality : Option ℤ := none
  resize_percent : Option ℤ := none
  sharpen : Option ℤ := none
  strip_metadata : Option String := none
  auto_orient : Option String := none
  preset : Option String := none
  output_format : Option String := none

/-- `max(MIN, min(x, MAX))`. -/
def clampTo (lo hi : Nat) (x : ℤ) : Nat := (max (lo : ℤ) (min x (hi : ℤ))).toNat

/-- The option block of `upload_image` (identical in `reoptimize_image`):
clamp the numeric fields into their configured ranges, parse the boolean
flags, and replace an unknown preset or output format by the configured
default. -/
def parseOptions (cfg : Config) (raw : RawForm) : Options :=
  let quality := clampTo cfg.MIN_QUALITY cfg.MAX_QUALITY (raw.quality.getD cfg.DEFAULT_QUALITY)
  let resize_percent :=
    clampTo cfg.MIN_RESIZE_PERCENT cfg.MAX_RESIZE_PERCENT
      (raw.resize_percent.getD cfg.DEFAULT_RESIZE_PERCENT)
  let sharpen := clampTo cfg.MIN_SHARPEN cfg.MAX_SHARPEN (raw.sharpen.getD cfg.SHARPEN_DEFAULT)
  let strip_metadata := strLower (raw.strip_metadata.getD "true") = "true"
  let auto_orient := strLower (raw.auto_orient.getD "true") = "true"
  let preset0 := raw.preset.getD cfg.DEFAULT_PRESET
  let preset :=
    if (cfg.PRESETS.find? (fun p => p.1 = preset0)).isSome then preset0
    else cfg.DEFAULT_PRESET
  let output_format0 := raw.output_format.getD cfg.OUTPUT_FORMAT_DEFAULT
  let output_format :=
    if output_format0 ∈ cfg.OUTPUT_FORMATS then output_format0
    else cfg.OUTPUT_FORMAT_DEFAULT
  { quality := some quality
    resize_percent := some resize_percent
    strip_metadata := some strip_metadata
    auto_orient := some auto_orient
    preset := some preset
    sharpen := some sharpen
    output_format := some output_format }

/-! ### Retention sweeper (`src/cleanup.py`, `cleanup_old_files`) -/

/-- One directory entry as the sweep sees it: name, whether it is a
directory, its age `now - getmtime` in seconds, and the failure oracles of
the two calls inside the per-file `try` (`os.path.getmtime`, `os.remove`). -/
structure FileEntry where
  name : String
  isDir : Bool
  age : ℚ
  statFail : Bool
  removeFail : Bool
deriving DecidableEq

/-- Whether `cleanup_old_files` removes this entry: it must be a regular
file, both per-file calls must succeed, and its age must strictly exceed
`max_age`. -/
def sweepRemoves (max_age : ℚ) (e : FileEntry) : Bool :=
  !e.isDir && !e.statFail && decide (e.age > max_age) && !e.removeFail

/-- `FileCleanup.cleanup_old_files`, one directory listing: walk every
entry in order, skip directories, and for each file compute its age and
remove it if older than `max_age`; an exception from `getmtime`/`remove`
is logged and the loop continues with the next entry.  Returns the
surviving entries and `removed_count`. -/
def cleanup_old_files (max_age : ℚ) : List FileEntry → List FileEntry × Nat
  | [] => ([], 0)
  | e :: rest =>
      let (kept, n) := cleanup_old_files max_age rest
      if e.isDir then (e :: kept, n)
      else if e.statFail then (e :: kept, n)
      else if e.age > max_age then
        if e.removeFail then (e :: kept, n) else (kept, n + 1)
      else (e :: kept, n)

/-! ### Characterization of a successful pipeline run

The following definitions restate, stage by stage, the values a successful
`optimize_image` run computes from the decoded image and the options; the
inversion theorem `optimizeImageAux_ok` proves that every successful run
produces exactly these values. -/

namespace Run

def quality (cfg : Config) (o : Options) : Nat := o.quality.getD cfg.DEFAULT_QUALITY

def resizePercent (cfg : Config) (o : Options) : Nat :=
  o.resize_percent.getD cfg.DEFAULT_RESIZE_PERCENT

def stripMeta (cfg : Config) (o : Options) : Bool :=
  o.strip_metadata.getD cfg.STRIP_METADATA_DEFAULT

def autoOrient (cfg : Config) (o : Options) : Bool :=
  o.auto_orient.getD cfg.AUTO_ORIENT_DEFAULT

def presetName (cfg : Config) (o : Options) : String := o.preset.getD cfg.DEFAULT_PRESET

def sharpenAmt (cfg : Config) (o : Options) : Nat := o.sharpen.getD cfg.SHARPEN_DEFAULT

def outputFormat (cfg : Config) (o : Options) : String :=
  o.output_format.getD cfg.OUTPUT_FORMAT_DEFAULT

/-- The resolved target format (step 6 of the pipeline). -/
def targetFormat (cfg : Config) (o : Options) (img0 : PILImage) : String :=
  if outputFormat cfg o = "same" then img0.format else strUpper (outputFormat cfg o)

/-- The destination path, with the extension rewritten on conversion. -/
def finalPath (cfg : Config) (o : Options) (p : String) : String :=
  if outputFormat cfg o = "same" then p
  else (splitext p).1 ++ "." ++ outputFormat cfg o

def oriented (cfg : Config) (o : Options) (img0 : PILImage) : PILImage :=
  if autoOrient cfg o then exifTranspose img0 else img0

def stripped (cfg : Config) (o : Options) (img0 : PILImage) : PILImage :=
  if stripMeta cfg o then (oriented cfg o img0).clearInfo else oriented cfg o img0

/-- The "original" dimensions the result reports: taken after
auto-orientation and metadata stripping. -/
def origW (cfg : Config) (o : Options) (img0 : PILImage) : Nat :=
  (stripped cfg o img0).width

def origH (cfg : Config) (o : Options) (img0 : PILImage) : Nat :=
  (stripped cfg o img0).height

def newW (cfg : Config) (o : Options) (img0 : PILImage) : Nat :=
  if resizePercent cfg o ≠ 100 then origW cfg o img0 * resizePercent cfg o / 100
  else origW cfg o img0

def newH (cfg : Config) (o : Options) (img0 : PILImage) : Nat :=
  if resizePercent cfg o ≠ 100 then origH cfg o img0 * resizePercent cfg o / 100
  else origH cfg o img0

def resized (cfg : Config) (o : Options) (img0 : PILImage) : PILImage :=
  if resizePercent cfg o ≠ 100 then
    (stripped cfg o img0).resizeTo (newW cfg o img0) (newH cfg o img0)
  else stripped cfg o img0

def flattened (cfg : Config) (o : Options) (img0 : PILImage) : PILImage :=
  if targetFormat cfg o img0 = "JPEG" ∧
      ((resized cfg o img0).mode = Mode.RGBA ∨ (resized cfg o img0).mode = Mode.LA ∨
        (resized cfg o img0).mode = Mode.P) then
    flattenForJpeg (resized cfg o img0)
  else resized cfg o img0

def preEncode (cfg : Config) (o : Options) (img0 : PILImage) : PILImage :=
  if stripMeta cfg o then (flattened cfg o img0).clearInfo else flattened cfg o img0

def saveExif (cfg : Config) (o : Options) (img0 : PILImage) : Option String :=
  if ¬stripMeta cfg o ∧ ((if ¬stripMeta cfg o then img0.exifBytes else none).isSome) ∧
      targetFormat cfg o img0 = img0.format then
    (if ¬stripMeta cfg o then img0.exifBytes else none)
  else none

/-- The value a successful encode dispatch produces, for a given target
format, image, path, quality, preset and exif block. -/
def encodeValue (target_format : String) (img : PILImage) (path : String)
    (q : Nat) (ps : PresetCfg) (ex : Option String) : WriteEvent × EncReport :=
  if target_format = "JPEG" ∨ target_format = "JPG" then
    (⟨path, if img.mode ≠ Mode.RGB then img.convertTo Mode.RGB else img, "JPEG", ex⟩,
      .jpeg (jpegQualityOf ps q) true true)
  else if target_format = "PNG" then
    (⟨path, img, "PNG", ex⟩, .png true (ps.png_compress_level.getD 9))
  else if target_format = "WEBP" then
    (⟨path, img, "WEBP", ex⟩, .webp (webpQualityOf ps q) (ps.webp_method.getD 6))
  else
    (⟨path, if img.mode ≠ Mode.RGB then img.convertTo Mode.RGB else img, "JPEG", ex⟩,
      .jpeg (jpegQualityOf ps q) true true)

/-- The write event and settings dictionary of the encode step. -/
def encodePure (cfg : Config) (o : Options) (p : String) (img0 : PILImage) :
    WriteEvent × EncReport :=
  encodeValue (targetFormat cfg o img0) (preEncode cfg o img0) (finalPath cfg o p)
    (quality cfg o) (presetSettings cfg (presetName cfg o)) (saveExif cfg o img0)

/-- The result dictionary of a successful run. -/
def record (cfg : Config) (o : Options) (p : String) (img0 : PILImage)
    (sz nsz : Nat) : SuccessRecord :=
  { original_size := sz
    optimized_size := nsz
    reduction_bytes := (sz : ℤ) - (nsz : ℤ)
    reduction_percent :=
      pyRound2 (if sz > 0 then (((sz : ℤ) - (nsz : ℤ) : ℤ) : ℚ) / (sz : ℚ) * 100 else 0)
    format := img0.format
    output_format := targetFormat cfg o img0
    format_converted := outputFormat cfg o ≠ "same"
    original_width := origW cfg o img0
    original_height := origH cfg o img0
    width := newW cfg o img0
    height := newH cfg o img0
    mode := img0.mode
    resized := resizePercent cfg o ≠ 100
    metadata_stripped := stripMeta cfg o
    auto_oriented := autoOrient cfg o
    preset := presetName cfg o
    quality_used :=
      if targetFormat cfg o img0 = "JPEG" ∨ targetFormat cfg o img0 = "WEBP" then
        some (quality cfg o)
      else none
    sharpened := sharpenAmt cfg o > 0
    sharpen_amount := sharpenAmt cfg o }

end Run

/-! ### Concrete test data used by witnesses and counterexamples -/

def c2Img : PILImage :=
  { format := "PNG", mode := .RGB, width := 4, height := 2,
    px := fun _ _ => ⟨10, 20, 30, 255⟩, palette := fun _ => whitePx,
    exifBytes := none, orientation := 1 }

def c2Env : Env :=
  { getsizeIn := .ok 1000, decode := .ok c2Img, resizeFail := none,
    unsharpFail := none, basicSharpenFail := none, saveFail := none,
    getsizeOut := .ok 1200 }

def c2Rec : SuccessRecord := Run.record appConfig {} "uploads/optimized_a.png" c2Img 1000 1200

def c3Env : Env :=
  { getsizeIn := .ok 1000, decode := .error "decode failed", resizeFail := none,
    unsharpFail := none, basicSharpenFail := none, saveFail := none,
    getsizeOut := .ok 1 }

def c7Img : PILImage :=
  { format := "JPEG", mode := .RGB, width := 4, height := 2,
    px := fun _ _ => ⟨10, 20, 30, 255⟩, palette := fun _ => whitePx,
    exifBytes := none, orientation := 1 }

def c7Env : Env :=
  { getsizeIn := .ok 1000, decode := .ok c7Img, resizeFail := none,
    unsharpFail := none, basicSharpenFail := none, saveFail := none,
    getsizeOut := .ok 800 }

def c7Rec : SuccessRecord := Run.record appConfig {} "uploads/optimized_a.jpg" c7Img 1000 800

def c10Opts : Options := { output_format := some "jpeg" }

def c10Img : PILImage :=
  { format := "JPEG", mode := .RGB, width := 4, height := 2,
    px := fun _ _ => ⟨10, 20, 30, 255⟩, palette := fun _ => whitePx,
    exifBytes := none, orientation := 1 }

def c10Env : Env :=
  { getsizeIn := .ok 1000, decode := .ok c10Img, resizeFail := none,
    unsharpFail := none, basicSharpenFail := none, saveFail := none,
    getsizeOut := .ok 800 }

def c10Rec : SuccessRecord :=
  Run.record appConfig c10Opts "uploads/optimized_a.jpg" c10Img 1000 800

def c1Img : PILImage :=
  { format := "JPEG", mode := .RGB, width := 4, height := 2,
    px := fun _ _ => ⟨10, 20, 30, 255⟩, palette := fun _ => whitePx,
    exifBytes := none, orientation := 1 }

def c1Env : Env :=
  { getsizeIn := .ok 1000, decode := .ok c1Img, resizeFail := none,
    unsharpFail := none, basicSharpenFail := none, saveFail := none,
    getsizeOut := .ok 800 }

def c1Opts : Options := { quality := some 50, preset := some "balanced" }

def c1Rec : SuccessRecord := Run.record appConfig c1Opts "uploads/optimized_a.jpg" c1Img 1000 800

def c1Rep : EncReport := (Run.encodePure appConfig c1Opts "uploads/optimized_a.jpg" c1Img).2

def c4Img : PILImage :=
  { format := "JPEG", mode := .RGB, width := 2, height := 1,
    px := fun _ _ => ⟨10, 20, 30, 255⟩, palette := fun _ => whitePx,
    exifBytes := some "EXIF", orientation := 6 }

def c4Env : Env :=
  { getsizeIn := .ok 1000, decode := .ok c4Img, resizeFail := none,
    unsharpFail := none, basicSharpenFail := none, saveFail := none,
    getsizeOut := .ok 800 }

def c4Rec : SuccessRecord := Run.record appConfig {} "uploads/optimized_a.jpg" c4Img 1000 800

def c5Img : PILImage :=
  { format := "PNG", mode := .RGBA, width := 4, height := 2,
    px := fun x _ => ⟨7, 8, 9, if x = 0 then 0 else 255⟩, palette := fun _ => whitePx,
    exifBytes := none, orientation := 1 }

def c5Opts : Options := { output_format := some "jpeg" }

def c5Env : Env :=
  { getsizeIn := .ok 1000, decode := .ok c5Img, resizeFail := none,
    unsharpFail := none, basicSharpenFail := none, saveFail := none,
    getsizeOut := .ok 800 }

def c5Rec : SuccessRecord := Run.record appConfig c5Opts "uploads/optimized_a.png" c5Img 1000 800

def c5Write : WriteEvent := (Run.encodePure appConfig c5Opts "uploads/optimized_a.png" c5Img).1

def c6Img : PILImage :=
  { format := "PNG", mode := .P, width := 2, height := 1,
    px := fun x _ => if x = 0 then ⟨0, 0, 0, 255⟩ else ⟨1, 1, 1, 255⟩,
    palette := fun i => if i = 0 then ⟨9, 9, 9, 0⟩ else ⟨40, 50, 60, 255⟩,
    exifBytes := none, orientation := 1 }

def c8Raw : RawForm :=
  { quality := some 500, resize_percent := some (-5), sharpen := some 1000,
    preset := some "bogus", output_format := some "gif" }

def c8Img : PILImage :=
  { format := "JPEG", mode := .RGB, width := 4, height := 2,
    px := fun _ _ => ⟨10, 20, 30, 255⟩, palette := fun _ => whitePx,
    exifBytes := none, orientation := 1 }

def c8Env : Env :=
  { getsizeIn := .ok 1000, decode := .ok c8Img, resizeFail := none,
    unsharpFail := none, basicSharpenFail := none, saveFail := none,
    getsizeOut := .ok 800 }

def c8Rec : SuccessRecord :=
  Run.record appConfig (parseOptions appConfig c8Raw) "uploads/optimized_a.jpg" c8Img 1000 800

/-! ### Computation lemmas for the embedded library primitives -/

@[simp]
theorem bind_ok_eq {α β ε : Type} (a : α) (f : α → Except ε β) :
    (Except.ok a : Except ε α) >>= f = f a := rfl

@[simp]
theorem bind_error_eq {α β ε : Type} (e : ε) (f : α → Except ε β) :
    (Except.error e : Except ε α) >>= f = Except.error e := rfl

@[simp]
theorem pure_ok_eq {α ε : Type} (a : α) :
    (pure a : Except ε α) = Except.ok a := rfl

@[simp]
theorem clearInfo_mode (img : PILImage) : img.clearInfo.mode = img.mode := rfl

@[simp]
theorem clearInfo_width (img : PILImage) : img.clearInfo.width = img.width := rfl

@[simp]
theorem clearInfo_height (img : PILImage) : img.clearInfo.height = img.height := rfl

@[simp]
theorem clearInfo_format (img : PILImage) : img.clearInfo.format = img.format := rfl

@[simp]
theorem clearInfo_px (img : PILImage) : img.clearInfo.px = img.px := rfl

@[simp]
theorem resizeTo_mode (img : PILImage) (w h : Nat) : (img.resizeTo w h).mode = img.mode := rfl

@[simp]
theorem resizeTo_width (img : PILImage) (w h : Nat) : (img.resizeTo w h).width = w := rfl

@[simp]
theorem resizeTo_height (img : PILImage) (w h : Nat) : (img.resizeTo w h).height = h := rfl

@[simp]
theorem resizeTo_format (img : PILImage) (w h : Nat) : (img.resizeTo w h).format = img.format := rfl

@[simp]
theorem exifTranspose_mode (img : PILImage) : (exifTranspose img).mode = img.mode := by
  unfold exifTranspose
  split <;> rfl

@[simp]
theorem exifTranspose_format (img : PILImage) : (exifTranspose img).format = img.format := by
  unfold exifTranspose
  split <;> rfl

@[simp]
theorem convertTo_mode (img : PILImage) (m : Mode) : (img.convertTo m).mode = m := by
  unfold PILImage.convertTo
  split <;> rfl

@[simp]
theorem paste_mode (bg src : PILImage) (mask : Option PILImage) :
    (bg.paste src mask).mode = bg.mode := rfl

@[simp]
theorem newRGB_mode (w h : Nat) (c : Pixel) : (PILImage.newRGB w h c).mode = Mode.RGB := rfl

@[simp]
theorem flattenForJpeg_mode (img : PILImage) : (flattenForJpeg img).mode = Mode.RGB := rfl

/-- If the filters do not raise, sharpening returns the image unchanged
(the kernels are modelled as pixel-faithful transforms). -/
theorem applySharpening_ok {env : Env} {img img' : PILImage} {s : Nat}
    (h : applySharpening env img s = .ok img') : img' = img := by
  unfold applySharpening at h
  split at h
  · exact ((Except.ok.injEq _ _).mp h).symm
  · cases hu : env.unsharpFail with
    | none => rw [hu] at h; exact ((Except.ok.injEq _ _).mp h).symm
    | some m =>
        rw [hu] at h
        cases hb : env.basicSharpenFail with
        | none => rw [hb] at h; exact ((Except.ok.injEq _ _).mp h).symm
        | some m2 => rw [hb] at h; exact Except.noConfusion h

theorem bind_eq_ok_iff {α β : Type} {x : Except String α} {f : α → Except String β}
    {b : β} : x >>= f = .ok b ↔ ∃ a, x = .ok a ∧ f a = .ok b := by
  cases x <;> simp [bind_error_eq, bind_ok_eq]

/-- If saving raises, every branch of the encode dispatch raises. -/
theorem encodeDispatch_fail (env : Env) (img : PILImage) (path : String)
    (q : Nat) (ps : PresetCfg) (ex : Option String) (tf : String) {m : String}
    (hsf : env.saveFail = some m) :
    (if tf = "JPEG" ∨ tf = "JPG" then optimizeJpeg env img path q ps ex
     else if tf = "PNG" then optimizePng env img path ps ex
     else if tf = "WEBP" then optimizeWebp env img path q ps ex
     else optimizeJpeg env img path q ps ex)
    = .error m := by
  by_cases h1 : tf = "JPEG" ∨ tf = "JPG"
  · simp [h1, optimizeJpeg, hsf]
  · by_cases h2 : tf = "PNG"
    · simp [h1, h2, optimizePng, hsf]
    · by_cases h3 : tf = "WEBP"
      · simp [h1, h2, h3, optimizeWebp, hsf]
      · simp [h1, h2, h3, optimizeJpeg, hsf]

/-- If saving does not raise, the encode dispatch produces `encodeValue`. -/
theorem encodeDispatch_ok (env : Env) (img : PILImage) (path : String)
    (q : Nat) (ps : PresetCfg) (ex : Option String) (tf : String)
    (hsf : env.saveFail = none) :
    (if tf = "JPEG" ∨ tf = "JPG" then optimizeJpeg env img path q ps ex
     else if tf = "PNG" then optimizePng env img path ps ex
     else if tf = "WEBP" then optimizeWebp env img path q ps ex
     else optimizeJpeg env img path q ps ex)
    = .ok (Run.encodeValue tf img path q ps ex) := by
  by_cases h1 : tf = "JPEG" ∨ tf = "JPG"
  · simp [h1, optimizeJpeg, Run.encodeValue, hsf]
  · by_cases h2 : tf = "PNG"
    · simp [h1, h2, optimizePng, Run.encodeValue, hsf]
    · by_cases h3 : tf = "WEBP"
      · simp [h1, h2, h3, optimizeWebp, Run.encodeValue, hsf]
      · simp [h1, h2, h3, optimizeJpeg, Run.encodeValue, hsf]

set_option maxHeartbeats 4000000 in
/-- Inversion of a successful run of the pipeline: the file sizes were
obtained, the image was decoded, and the result is exactly the `Run`
characterization. -/
theorem optimizeImageAux_ok {cfg : Config} {env : Env} {p : String} {opts : Options}
    {t : SuccessRecord × WriteEvent × EncReport}
    (h : optimizeImageAux cfg env p opts = .ok t) :
    ∃ sz img0 nsz, env.getsizeIn = .ok sz ∧ env.decode = .ok img0 ∧
      env.getsizeOut = .ok nsz ∧
      t = (Run.record cfg opts p img0 sz nsz, Run.encodePure cfg opts p img0) := by
  unfold optimizeImageAux at h
  simp only [bind_eq_ok_iff, pure_ok_eq, Except.ok.injEq] at h
  obtain ⟨sz, hg, img0, hd, rs, hrs, img4, hi4, enc, henc, nsz, hgo, ht⟩ := h
  have hrs2 : rs = (Run.newW cfg opts img0, Run.newH cfg opts img0, Run.resized cfg opts img0) := by
    by_cases hrp : opts.resize_percent.getD cfg.DEFAULT_RESIZE_PERCENT = 100
    · rw [if_neg (not_not_intro hrp)] at hrs
      replace hrs := (Except.ok.injEq _ _).mp hrs
      subst hrs
      simp [Run.newW, Run.newH, Run.resized, Run.resizePercent, Run.origW, Run.origH,
        Run.stripped, Run.oriented, Run.stripMeta, Run.autoOrient, hrp]
    · rw [if_pos hrp] at hrs
      rcases hrf : env.resizeFail with _ | m
      · simp only [hrf] at hrs
        replace hrs := (Except.ok.injEq _ _).mp hrs
        subst hrs
        simp [Run.newW, Run.newH, Run.resized, Run.resizePercent, Run.origW, Run.origH,
          Run.stripped, Run.oriented, Run.stripMeta, Run.autoOrient, hrp]
      · rw [hrf] at hrs
        exact absurd hrs (by simp)
  subst hrs2
  have hi42 : img4 = Run.resized cfg opts img0 := by
    by_cases hsh : 0 < opts.sharpen.getD cfg.SHARPEN_DEFAULT
    · rw [if_pos hsh] at hi4
      simpa using applySharpening_ok hi4
    · rw [if_neg hsh] at hi4
      simpa using ((Except.ok.injEq _ _).mp hi4).symm
  subst hi42
  have henc2 : enc = Run.encodePure cfg opts p img0 := by
    cases hsf : env.saveFail with
    | some m =>
        rw [encodeDispatch_fail env _ _ _ _ _ _ hsf] at henc
        exact Except.noConfusion henc
    | none =>
        rw [encodeDispatch_ok env _ _ _ _ _ _ hsf] at henc
        exact ((Except.ok.injEq _ _).mp henc).symm
  subst henc2
  refine ⟨sz, img0, nsz, hg, hd, hgo, ?_⟩
  rw [← ht]
  rfl

/-- Inversion at the level of `optimize_image`. -/
theorem optimize_image_ok {cfg : Config} {env : Env} {p : String} {opts : Options}
    {r : SuccessRecord} (h : optimize_image cfg env p opts = .ok r) :
    ∃ sz img0 nsz, env.getsizeIn = .ok sz ∧ env.decode = .ok img0 ∧
      env.getsizeOut = .ok nsz ∧ r = Run.record cfg opts p img0 sz nsz := by
  unfold optimize_image at h
  cases haux : optimizeImageAux cfg env p opts with
  | error e => rw [haux] at h; exact absurd h (by simp)
  | ok t =>
      rw [haux] at h
      obtain ⟨sz, img0, nsz, hg, hd, hgo, ht⟩ := optimizeImageAux_ok haux
      subst ht
      exact ⟨sz, img0, nsz, hg, hd, hgo, ((OptResult.ok.injEq _ _).mp h).symm⟩

/-- Inversion for the write event of a successful run. -/
theorem optimizeWrite_ok {cfg : Config} {env : Env} {p : String} {opts : Options}
    {w : WriteEvent} (h : optimizeWrite cfg env p opts = some w) :
    ∃ img0, env.decode = .ok img0 ∧ w = (Run.encodePure cfg opts p img0).1 := by
  unfold optimizeWrite at h
  cases haux : optimizeImageAux cfg env p opts with
  | error e => rw [haux] at h; exact absurd h (by simp)
  | ok t =>
      rw [haux] at h
      obtain ⟨sz, img0, nsz, hg, hd, hgo, ht⟩ := optimizeImageAux_ok haux
      subst ht
      exact ⟨img0, hd, ((Option.some.injEq _ _).mp h).symm⟩

/-- Inversion for the settings dictionary of a successful run. -/
theorem optimizeReport_ok {cfg : Config} {env : Env} {p : String} {opts : Options}
    {rep : EncReport} (h : optimizeReport cfg env p opts = some rep) :
    ∃ img0, env.decode = .ok img0 ∧ rep = (Run.encodePure cfg opts p img0).2 := by
  unfold optimizeReport at h
  cases haux : optimizeImageAux cfg env p opts with
  | error e => rw [haux] at h; exact absurd h (by simp)
  | ok t =>
      rw [haux] at h
      obtain ⟨sz, img0, nsz, hg, hd, hgo, ht⟩ := optimizeImageAux_ok haux
      subst ht
      exact ⟨img0, hd, ((Option.some.injEq _ _).mp h).symm⟩

theorem pyRound2_zero : pyRound2 0 = 0 := by
  norm_num [pyRound2, roundHalfEven]

theorem clampTo_bounds {lo hi : Nat} (x : ℤ) (hle : lo ≤ hi) :
    lo ≤ clampTo lo hi x ∧ clampTo lo hi x ≤ hi := by
  unfold clampTo
  omega

/-- Resizing, sharpening, orientation and metadata stripping all preserve
the color mode, so the mode reaching the flattening step is the decoded
mode. -/
theorem Run.resized_mode (cfg : Config) (o : Options) (img0 : PILImage) :
    (Run.resized cfg o img0).mode = img0.mode := by
  unfold Run.resized Run.stripped Run.oriented
  repeat' split
  all_goals simp

theorem blendCh_full (b s : Nat) : blendCh b s 255 = s := by
  simp [blendCh]

theorem blendCh_zero (b s : Nat) : blendCh b s 0 = b := by
  simp [blendCh]

@[simp]
theorem encodeValue_path (tf : String) (img : PILImage) (path : String) (q : Nat)
    (ps : PresetCfg) (ex : Option String) :
    (Run.encodeValue tf img path q ps ex).1.path = path := by
  unfold Run.encodeValue
  repeat' split
  all_goals rfl

/-! ### Claim theorems -/

/-- C2: for every successful optimization, `reduction_bytes` is
`original_size - optimized_size` (an integer that may be negative), and
`reduction_percent` is `round(reduction_bytes/original_size*100, 2)` for a
non-zero original size and `0` when the original size is zero. -/
theorem reduction_arithmetic (cfg : Config) (env : Env) (p : String) (opts : Options)
    (r : SuccessRecord) (h : optimize_image cfg env p opts = .ok r) :
    r.reduction_bytes = (r.original_size : ℤ) - (r.optimized_size : ℤ) ∧
    (r.original_size ≠ 0 →
      r.reduction_percent = pyRound2 ((r.reduction_bytes : ℚ) / (r.original_size : ℚ) * 100)) ∧
    (r.original_size = 0 → r.reduction_percent = 0) := by
  obtain ⟨sz, img0, nsz, hg, hd, hgo, hr⟩ := optimize_image_ok h
  subst hr
  refine ⟨rfl, fun hne => ?_, fun hz => ?_⟩
  · have hpos : 0 < sz := Nat.pos_of_ne_zero (by simpa [Run.record] using hne)
    simp [Run.record, hpos]
  · have hz' : sz = 0 := by simpa [Run.record] using hz
    simp [Run.record, hz', pyRound2_zero]

/-- Witness for C2 at a run whose output grew (negative reduction is still
reported as success). -/
theorem reduction_arithmetic_witness :
    optimize_image appConfig c2Env "uploads/optimized_a.png" {} = .ok c2Rec ∧
    c2Rec.reduction_bytes < 0 ∧
    (c2Rec.reduction_bytes = (c2Rec.original_size : ℤ) - (c2Rec.optimized_size : ℤ) ∧
      (c2Rec.original_size ≠ 0 →
        c2Rec.reduction_percent =
          pyRound2 ((c2Rec.reduction_bytes : ℚ) / (c2Rec.original_size : ℚ) * 100)) ∧
      (c2Rec.original_size = 0 → c2Rec.reduction_percent = 0)) :=
  ⟨rfl, by decide,
    reduction_arithmetic appConfig c2Env "uploads/optimized_a.png" {} c2Rec rfl⟩

/-- C3: `optimize_image` never propagates an exception — its result is
either the success dictionary or the failure value, which by construction
carries only the error description (the `OptResult.err` constructor has no
numeric fields); and an exception from a pipeline step surfaces as a
failure result with the underlying message (shown for the decode step). -/
theorem pipeline_never_raises (cfg : Config) (env : Env) (p : String) (opts : Options) :
    ((∃ r, optimize_image cfg env p opts = .ok r) ∨
      (∃ e, optimize_image cfg env p opts = .err e)) ∧
    (∀ n m, env.getsizeIn = .ok n → env.decode = .error m →
      optimize_image cfg env p opts = .err m) := by
  constructor
  · cases ho : optimize_image cfg env p opts with
    | ok r => exact Or.inl ⟨r, rfl⟩
    | err e => exact Or.inr ⟨e, rfl⟩
  · intro n m hg hd
    simp [optimize_image, optimizeImageAux, hg, hd]

/-- Witness for C3: a failing decode yields the tagged failure with the
underlying message. -/
theorem pipeline_never_raises_witness :
    optimize_image appConfig c3Env "uploads/optimized_a.png" {} = .err "decode failed" :=
  (pipeline_never_raises appConfig c3Env "uploads/optimized_a.png" {}).2
    1000 "decode failed" rfl rfl

/-- C7: with `output_format = "same"`, the result reports
`format_converted = false`, the target format equals the detected source
format, and the destination path is not rewritten. -/
theorem same_format_resolution (cfg : Config) (env : Env) (p : String) (opts : Options)
    (r : SuccessRecord)
    (hof : opts.output_format.getD cfg.OUTPUT_FORMAT_DEFAULT = "same")
    (h : optimize_image cfg env p opts = .ok r) :
    r.format_converted = false ∧ r.output_format = r.format ∧
    (∀ w, optimizeWrite cfg env p opts = some w → w.path = p) := by
  obtain ⟨sz, img0, nsz, hg, hd, hgo, hr⟩ := optimize_image_ok h
  subst hr
  refine ⟨?_, ?_, fun w hw => ?_⟩
  · simp [Run.record, Run.outputFormat, hof]
  · simp [Run.record, Run.targetFormat, Run.outputFormat, hof]
  · obtain ⟨img0', hd', hw'⟩ := optimizeWrite_ok hw
    subst hw'
    simp [Run.encodePure, Run.finalPath, Run.outputFormat, hof]

/-- Witness for C7 on a JPEG source with the default (`same`) format. -/
theorem same_format_resolution_witness :
    (({} : Options).output_format.getD appConfig.OUTPUT_FORMAT_DEFAULT = "same") ∧
    optimize_image appConfig c7Env "uploads/optimized_a.jpg" {} = .ok c7Rec ∧
    (c7Rec.format_converted = false ∧ c7Rec.output_format = c7Rec.format ∧
      (∀ w, optimizeWrite appConfig c7Env "uploads/optimized_a.jpg" {} = some w →
        w.path = "uploads/optimized_a.jpg")) :=
  ⟨rfl, rfl,
    same_format_resolution appConfig c7Env "uploads/optimized_a.jpg" {} c7Rec rfl rfl⟩

/-- C10: with any `output_format` other than `"same"`, the result reports
`format_converted = true` — the flag records that a conversion was
requested, independent of whether the requested format equals the source
format. -/
theorem format_converted_flag (cfg : Config) (env : Env) (p : String) (opts : Options)
    (r : SuccessRecord)
    (hof : opts.output_format.getD cfg.OUTPUT_FORMAT_DEFAULT ≠ "same")
    (h : optimize_image cfg env p opts = .ok r) :
    r.format_converted = true := by
  obtain ⟨sz, img0, nsz, hg, hd, hgo, hr⟩ := optimize_image_ok h
  subst hr
  simp [Run.record, Run.outputFormat, hof]

/-- Witness for C10: a JPEG source converted "to JPEG" still reports
`format_converted = true` while target and source formats coincide. -/
theorem format_converted_flag_witness :
    (c10Opts.output_format.getD appConfig.OUTPUT_FORMAT_DEFAULT ≠ "same") ∧
    optimize_image appConfig c10Env "uploads/optimized_a.jpg" c10Opts = .ok c10Rec ∧
    c10Rec.format_converted = true ∧ c10Rec.output_format = c10Rec.format :=
  ⟨by decide, rfl,
    format_converted_flag appConfig c10Env "uploads/optimized_a.jpg" c10Opts c10Rec
      (by decide) rfl,
    rfl⟩

/-- C1 counterexample: with a raw quality of 50 and preset `balanced` on a
JPEG target, the encoder applies the preset's jpeg quality 85, but the
result's `quality_used` reports 50 — so `quality_used` does not report the
actually-applied quality. -/
theorem quality_used_counterexample :
    optimizeReport appConfig c1Env "uploads/optimized_a.jpg" c1Opts =
      some (EncReport.jpeg 85 true true) ∧
    (optimize_image appConfig c1Env "uploads/optimized_a.jpg" c1Opts).qualityUsed =
      some (some 50) ∧
    jpegQualityOf (presetSettings appConfig "balanced") 50 = 85 ∧
    ¬(50 : Nat) = 85 :=
  ⟨rfl, rfl, rfl, by decide⟩

/-- C1 (amended): for a JPEG or WebP target the encoder applies the
preset's `jpeg_quality`/`webp_quality` (falling back to the raw quality
only if the preset lacks the key), while the result's `quality_used` field
reports the request's raw quality value; for a PNG target, `quality_used`
is null. -/
theorem quality_applied_vs_reported (cfg : Config) (env : Env) (p : String)
    (opts : Options) (r : SuccessRecord) (rep : EncReport)
    (h : optimize_image cfg env p opts = .ok r)
    (hrep : optimizeReport cfg env p opts = some rep) :
    (r.output_format = "JPEG" →
      rep = .jpeg
        (jpegQualityOf (presetSettings cfg (opts.preset.getD cfg.DEFAULT_PRESET))
          (opts.quality.getD cfg.DEFAULT_QUALITY)) true true ∧
      r.quality_used = some (opts.quality.getD cfg.DEFAULT_QUALITY)) ∧
    (r.output_format = "WEBP" →
      rep = .webp
        (webpQualityOf (presetSettings cfg (opts.preset.getD cfg.DEFAULT_PRESET))
          (opts.quality.getD cfg.DEFAULT_QUALITY))
        ((presetSettings cfg (opts.preset.getD cfg.DEFAULT_PRESET)).webp_method.getD 6) ∧
      r.quality_used = some (opts.quality.getD cfg.DEFAULT_QUALITY)) ∧
    (r.output_format = "PNG" → r.quality_used = none) := by
  obtain ⟨sz, img0, nsz, hg, hd, hgo, hr⟩ := optimize_image_ok h
  obtain ⟨img0', hd', hrep'⟩ := optimizeReport_ok hrep
  rw [hd] at hd'
  replace hd' := (Except.ok.injEq _ _).mp hd'
  subst hd'
  subst hr
  subst hrep'
  refine ⟨fun htf => ?_, fun htf => ?_, fun htf => ?_⟩ <;>
    simp only [Run.record] at htf
  · constructor
    · simp [Run.encodePure, Run.encodeValue, htf, Run.quality, Run.presetName]
    · simp [Run.record, htf, Run.quality]
  · constructor
    · simp [Run.encodePure, Run.encodeValue, htf, Run.quality, Run.presetName]
    · simp [Run.record, htf, Run.quality]
  · simp [Run.record, htf, Run.quality]

/-- Witness for the amended C1 on a JPEG run with quality 50 and preset
`balanced`. -/
theorem quality_applied_vs_reported_witness :
    optimize_image appConfig c1Env "uploads/optimized_a.jpg" c1Opts = .ok c1Rec ∧
    optimizeReport appConfig c1Env "uploads/optimized_a.jpg" c1Opts = some c1Rep ∧
    ((c1Rec.output_format = "JPEG" →
      c1Rep = .jpeg
        (jpegQualityOf (presetSettings appConfig (c1Opts.preset.getD appConfig.DEFAULT_PRESET))
          (c1Opts.quality.getD appConfig.DEFAULT_QUALITY)) true true ∧
      c1Rec.quality_used = some (c1Opts.quality.getD appConfig.DEFAULT_QUALITY)) ∧
    (c1Rec.output_format = "WEBP" →
      c1Rep = .webp
        (webpQualityOf (presetSettings appConfig (c1Opts.preset.getD appConfig.DEFAULT_PRESET))
          (c1Opts.quality.getD appConfig.DEFAULT_QUALITY))
        ((presetSettings appConfig (c1Opts.preset.getD appConfig.DEFAULT_PRESET)).webp_method.getD 6) ∧
      c1Rec.quality_used = some (c1Opts.quality.getD appConfig.DEFAULT_QUALITY)) ∧
    (c1Rec.output_format = "PNG" → c1Rec.quality_used = none)) :=
  ⟨rfl, rfl,
    quality_applied_vs_reported appConfig c1Env "uploads/optimized_a.jpg" c1Opts
      c1Rec c1Rep rfl rfl⟩

/-- C4 counterexample: the source decodes at 2×1 with EXIF orientation 6
(a width/height-swapping tag); with auto-orient on (the default), the
result reports original dimensions 1×2 — the post-transpose size, not the
decoded size. -/
theorem original_dims_counterexample :
    c4Img.width = 2 ∧ c4Img.height = 1 ∧
    (optimize_image appConfig c4Env "uploads/optimized_a.jpg" {}).originalWidth = some 1 ∧
    (optimize_image appConfig c4Env "uploads/optimized_a.jpg" {}).originalHeight = some 2 ∧
    ¬((optimize_image appConfig c4Env "uploads/optimized_a.jpg" {}).originalWidth =
        some c4Img.width) :=
  ⟨rfl, rfl, rfl, rfl, by decide⟩

/-- C4 (amended): the "original" dimensions the result reports are captured
after the auto-orientation transpose, so with `auto_orient` enabled they
equal the transposed dimensions of the decoded image. -/
theorem original_dims_after_orient (cfg : Config) (env : Env) (p : String)
    (opts : Options) (r : SuccessRecord) (img0 : PILImage)
    (hao : opts.auto_orient.getD cfg.AUTO_ORIENT_DEFAULT = true)
    (hd : env.decode = .ok img0)
    (h : optimize_image cfg env p opts = .ok r) :
    r.original_width = (exifTranspose img0).width ∧
    r.original_height = (exifTranspose img0).height := by
  obtain ⟨sz, img0', nsz, hg, hd', hgo, hr⟩ := optimize_image_ok h
  rw [hd] at hd'
  replace hd' := (Except.ok.injEq _ _).mp hd'
  subst hd'
  subst hr
  constructor <;>
    by_cases hst : opts.strip_metadata.getD cfg.STRIP_METADATA_DEFAULT = true <;>
    simp [Run.record, Run.origW, Run.origH, Run.stripped, Run.oriented, Run.autoOrient,
      Run.stripMeta, hao, hst]

/-- Witness for the amended C4 at the orientation-6 source. -/
theorem original_dims_after_orient_witness :
    (({} : Options).auto_orient.getD appConfig.AUTO_ORIENT_DEFAULT = true) ∧
    c4Env.decode = .ok c4Img ∧
    optimize_image appConfig c4Env "uploads/optimized_a.jpg" {} = .ok c4Rec ∧
    (c4Rec.original_width = (exifTranspose c4Img).width ∧
      c4Rec.original_height = (exifTranspose c4Img).height) :=
  ⟨rfl, rfl, rfl,
    original_dims_after_orient appConfig c4Env "uploads/optimized_a.jpg" {} c4Rec c4Img
      rfl rfl rfl⟩

/-- Every pixel of the white-flattened image is fully opaque. -/
theorem flattenForJpeg_alpha (img : PILImage)
    (him : img.mode = Mode.RGBA ∨ img.mode = Mode.LA ∨ img.mode = Mode.P) :
    ∀ x y, ((flattenForJpeg img).px x y).a = 255 := by
  intro x y
  rcases him with h | h | h <;>
    simp [flattenForJpeg, PILImage.paste, PILImage.newRGB, PILImage.lastBand,
      PILImage.convertTo, h, whitePx]

/-- Compositing endpoints of the flattening: a fully opaque source pixel
keeps its color, a fully transparent one becomes the white background
(`src` is the palette-expanded image for mode `P`). -/
theorem flattenForJpeg_endpoints (img : PILImage)
    (him : img.mode = Mode.RGBA ∨ img.mode = Mode.LA ∨ img.mode = Mode.P) :
    ∀ x y,
      (((if img.mode = Mode.P then img.convertTo Mode.RGBA else img).px x y).a = 255 →
        (flattenForJpeg img).px x y =
          { (if img.mode = Mode.P then img.convertTo Mode.RGBA else img).px x y with
              a := 255 }) ∧
      (((if img.mode = Mode.P then img.convertTo Mode.RGBA else img).px x y).a = 0 →
        (flattenForJpeg img).px x y = whitePx) := by
  intro x y
  rcases him with h | h | h <;>
    constructor <;>
    intro ha <;>
    simp [flattenForJpeg, PILImage.paste, PILImage.newRGB, PILImage.lastBand,
      PILImage.convertTo, h, whitePx, blendCh_full, blendCh_zero] at ha ⊢ <;>
    simp [ha, blendCh_full, blendCh_zero]

/-- C5 counterexample: a transparent (RGBA) PNG converted to JPEG — the
mode reported in the result is the original `RGBA`, an alpha-carrying mode,
not an opaque RGB-equivalent. -/
theorem converted_mode_counterexample :
    (optimize_image appConfig c5Env "uploads/optimized_a.png" c5Opts).modeOf =
      some Mode.RGBA ∧
    Mode.RGBA.hasAlpha = true :=
  ⟨rfl, rfl⟩

/-- C5 (amended): converting a transparent PNG to JPEG reports
`format_converted = true`, rewrites the destination extension to `.jpeg`,
and the image actually encoded is opaque RGB with every pixel's alpha 255 —
but the `mode` field of the result reports the original source mode
(`RGBA`), not the flattened mode. -/
theorem png_to_jpeg_conversion (cfg : Config) (env : Env) (p : String)
    (opts : Options) (r : SuccessRecord) (w : WriteEvent) (img0 : PILImage)
    (himg : img0.mode = Mode.RGBA)
    (hfmt : img0.format = "PNG")
    (hof : opts.output_format.getD cfg.OUTPUT_FORMAT_DEFAULT = "jpeg")
    (hd : env.decode = .ok img0)
    (h : optimize_image cfg env p opts = .ok r)
    (hw : optimizeWrite cfg env p opts = some w) :
    r.format_converted = true ∧
    w.path = (splitext p).1 ++ "." ++ "jpeg" ∧
    w.image.mode = Mode.RGB ∧
    (∀ x y, (w.image.px x y).a = 255) ∧
    r.mode = Mode.RGBA := by
  obtain ⟨sz, img0', nsz, hg, hd', hgo, hr⟩ := optimize_image_ok h
  rw [hd] at hd'
  replace hd' := (Except.ok.injEq _ _).mp hd'
  subst hd'
  subst hr
  obtain ⟨img0', hd', hw'⟩ := optimizeWrite_ok hw
  rw [hd] at hd'
  replace hd' := (Except.ok.injEq _ _).mp hd'
  subst hd'
  subst hw'
  have htf : Run.targetFormat cfg opts img0 = "JPEG" := by
    unfold Run.targetFormat Run.outputFormat
    rw [hof]
    rfl
  have hfl : Run.flattened cfg opts img0 = flattenForJpeg (Run.resized cfg opts img0) := by
    unfold Run.flattened
    rw [if_pos ⟨htf, Or.inl (by rw [Run.resized_mode, himg])⟩]
  have hpre : Run.preEncode cfg opts img0 = flattenForJpeg (Run.resized cfg opts img0) ∨
      Run.preEncode cfg opts img0 = (flattenForJpeg (Run.resized cfg opts img0)).clearInfo := by
    unfold Run.preEncode
    by_cases hst : Run.stripMeta cfg opts = true
    · exact Or.inr (by rw [if_pos hst, hfl])
    · exact Or.inl (by rw [if_neg hst, hfl])
  have hpm : (Run.preEncode cfg opts img0).mode = Mode.RGB := by
    rcases hpre with hp | hp <;> rw [hp] <;> simp
  have hwimg : (Run.encodePure cfg opts p img0).1.image = Run.preEncode cfg opts img0 := by
    unfold Run.encodePure Run.encodeValue
    rw [if_pos (Or.inl htf)]
    simp [hpm]
  refine ⟨?_, ?_, ?_, ?_, ?_⟩
  · simp [Run.record, Run.outputFormat, hof]
  · simp [Run.encodePure, Run.finalPath, Run.outputFormat, hof]
  · rw [hwimg, hpm]
  · intro x y
    rw [hwimg]
    have halpha := flattenForJpeg_alpha (Run.resized cfg opts img0)
      (Or.inl (by rw [Run.resized_mode, himg]))
    rcases hpre with hp | hp <;> rw [hp] <;> simpa using halpha x y
  · simp [Run.record, himg]

/-- Witness for the amended C5 at a concrete transparent PNG. -/
theorem png_to_jpeg_conversion_witness :
    c5Img.mode = Mode.RGBA ∧ c5Img.format = "PNG" ∧
    (c5Opts.output_format.getD appConfig.OUTPUT_FORMAT_DEFAULT = "jpeg") ∧
    c5Env.decode = .ok c5Img ∧
    optimize_image appConfig c5Env "uploads/optimized_a.png" c5Opts = .ok c5Rec ∧
    optimizeWrite appConfig c5Env "uploads/optimized_a.png" c5Opts = some c5Write ∧
    (c5Rec.format_converted = true ∧
      c5Write.path = (splitext "uploads/optimized_a.png").1 ++ "." ++ "jpeg" ∧
      c5Write.image.mode = Mode.RGB ∧
      (∀ x y, (c5Write.image.px x y).a = 255) ∧
      c5Rec.mode = Mode.RGBA) :=
  ⟨rfl, rfl, rfl, rfl, rfl, rfl,
    png_to_jpeg_conversion appConfig c5Env "uploads/optimized_a.png" c5Opts c5Rec c5Write
      c5Img rfl rfl rfl rfl rfl rfl⟩

/-- C6: encoding an `RGBA`, `LA` or palette (`P`) image to JPEG flattens it
onto an opaque white background: palette images are first expanded to RGBA
and composited with their alpha band as mask, the flattened image is `RGB`
with every pixel opaque, a fully opaque source pixel keeps its color and a
fully transparent one becomes white, and the JPEG encoder writes the
flattened image unchanged (its mode is already `RGB`). -/
theorem jpeg_alpha_flattening (img : PILImage) (path : String) (q : Nat)
    (ps : PresetCfg) (ex : Option String)
    (him : img.mode = Mode.RGBA ∨ img.mode = Mode.LA ∨ img.mode = Mode.P) :
    (flattenForJpeg img).mode = Mode.RGB ∧
    (∀ x y, ((flattenForJpeg img).px x y).a = 255) ∧
    (img.mode = Mode.P →
      flattenForJpeg img =
        (PILImage.newRGB img.width img.height whitePx).paste (img.convertTo Mode.RGBA)
          (some (img.convertTo Mode.RGBA).lastBand)) ∧
    (∀ x y,
      (((if img.mode = Mode.P then img.convertTo Mode.RGBA else img).px x y).a = 255 →
        (flattenForJpeg img).px x y =
          { (if img.mode = Mode.P then img.convertTo Mode.RGBA else img).px x y with
              a := 255 }) ∧
      (((if img.mode = Mode.P then img.convertTo Mode.RGBA else img).px x y).a = 0 →
        (flattenForJpeg img).px x y = whitePx)) ∧
    (Run.encodeValue "JPEG" (flattenForJpeg img) path q ps ex).1.image =
      flattenForJpeg img := by
  refine ⟨rfl, flattenForJpeg_alpha img him, fun hp => ?_, flattenForJpeg_endpoints img him, ?_⟩
  · simp [flattenForJpeg, hp]
  · unfold Run.encodeValue
    rw [if_pos (Or.inl rfl)]
    simp

/-- Witness for C6 at a concrete palette image with one transparent and one
opaque entry. -/
theorem jpeg_alpha_flattening_witness :
    (c6Img.mode = Mode.RGBA ∨ c6Img.mode = Mode.LA ∨ c6Img.mode = Mode.P) ∧
    ((flattenForJpeg c6Img).mode = Mode.RGB ∧
    (∀ x y, ((flattenForJpeg c6Img).px x y).a = 255) ∧
    (c6Img.mode = Mode.P →
      flattenForJpeg c6Img =
        (PILImage.newRGB c6Img.width c6Img.height whitePx).paste (c6Img.convertTo Mode.RGBA)
          (some (c6Img.convertTo Mode.RGBA).lastBand)) ∧
    (∀ x y,
      (((if c6Img.mode = Mode.P then c6Img.convertTo Mode.RGBA else c6Img).px x y).a = 255 →
        (flattenForJpeg c6Img).px x y =
          { (if c6Img.mode = Mode.P then c6Img.convertTo Mode.RGBA else c6Img).px x y with
              a := 255 }) ∧
      (((if c6Img.mode = Mode.P then c6Img.convertTo Mode.RGBA else c6Img).px x y).a = 0 →
        (flattenForJpeg c6Img).px x y = whitePx)) ∧
    (Run.encodeValue "JPEG" (flattenForJpeg c6Img) "uploads/optimized_a.jpeg" 85
      (presetSettings appConfig "balanced") none).1.image = flattenForJpeg c6Img) :=
  ⟨Or.inr (Or.inr rfl),
    jpeg_alpha_flattening c6Img "uploads/optimized_a.jpeg" 85
      (presetSettings appConfig "balanced") none (Or.inr (Or.inr rfl))⟩

/-- C8: the upload route clamps every numeric option into its configured
range and replaces an unknown preset or output format by the configured
default; the values the pipeline uses and echoes in the result obey the
same bounds. -/
theorem options_clamped_and_fallback (raw : RawForm) :
    (∀ q, (parseOptions appConfig raw).quality = some q → 1 ≤ q ∧ q ≤ 95) ∧
    (∀ rp, (parseOptions appConfig raw).resize_percent = some rp → 10 ≤ rp ∧ rp ≤ 200) ∧
    (∀ s, (parseOptions appConfig raw).sharpen = some s → s ≤ 100) ∧
    (∀ pr, (parseOptions appConfig raw).preset = some pr →
      (appConfig.PRESETS.find? (fun e => e.1 = pr)).isSome = true) ∧
    (∀ f, (parseOptions appConfig raw).output_format = some f →
      f ∈ appConfig.OUTPUT_FORMATS) ∧
    (∀ env p r, optimize_image appConfig env p (parseOptions appConfig raw) = .ok r →
      r.sharpen_amount ≤ 100 ∧ (∀ q, r.quality_used = some q → 1 ≤ q ∧ q ≤ 95)) := by
  refine ⟨fun q hq => ?_, fun rp hrp => ?_, fun s hs => ?_, fun pr hpr => ?_,
    fun f hf => ?_, fun env p r h => ?_⟩
  · replace hq := (Option.some.injEq _ _).mp hq
    subst hq
    exact clampTo_bounds _ (by decide)
  · replace hrp := (Option.some.injEq _ _).mp hrp
    subst hrp
    exact clampTo_bounds _ (by decide)
  · replace hs := (Option.some.injEq _ _).mp hs
    subst hs
    exact (clampTo_bounds _ (by decide)).2
  · replace hpr := (Option.some.injEq _ _).mp hpr
    subst hpr
    by_cases hin :
        (appConfig.PRESETS.find? (fun e => e.1 = raw.preset.getD appConfig.DEFAULT_PRESET)).isSome = true
    · simpa [parseOptions, hin] using hin
    · simp [parseOptions, hin]
      exact ⟨⟨some 85, some 85, some 9, some 6⟩, by decide⟩
  · replace hf := (Option.some.injEq _ _).mp hf
    subst hf
    by_cases hin : (raw.output_format.getD appConfig.OUTPUT_FORMAT_DEFAULT) ∈ appConfig.OUTPUT_FORMATS
    · simpa [parseOptions, hin] using hin
    · simp [parseOptions, hin]
      decide
  · obtain ⟨sz, img0, nsz, hg, hd, hgo, hr⟩ := optimize_image_ok h
    subst hr
    constructor
    · simpa [Run.record, Run.sharpenAmt, parseOptions] using
        (clampTo_bounds (raw.sharpen.getD appConfig.SHARPEN_DEFAULT) (by decide)).2
    · intro q hq
      have : q = Run.quality appConfig (parseOptions appConfig raw) := by
        by_cases hc : Run.targetFormat appConfig (parseOptions appConfig raw) img0 = "JPEG" ∨
            Run.targetFormat appConfig (parseOptions appConfig raw) img0 = "WEBP"
        · simp [Run.record, hc] at hq
          exact hq.symm
        · simp [Run.record, hc] at hq
      subst this
      simpa [Run.quality, parseOptions] using
        clampTo_bounds (raw.quality.getD appConfig.DEFAULT_QUALITY) (by decide)

/-- Witness for C8 at a form with every numeric field out of range and
unknown preset/format values. -/
theorem options_clamped_and_fallback_witness :
    (parseOptions appConfig c8Raw).quality = some 95 ∧
    (parseOptions appConfig c8Raw).resize_percent = some 10 ∧
    (parseOptions appConfig c8Raw).sharpen = some 100 ∧
    (parseOptions appConfig c8Raw).preset = some "balanced" ∧
    (parseOptions appConfig c8Raw).output_format = some "same" ∧
    (1 ≤ 95 ∧ 95 ≤ 95) ∧
    (c8Rec.sharpen_amount ≤ 100 ∧ (∀ q, c8Rec.quality_used = some q → 1 ≤ q ∧ q ≤ 95)) :=
  ⟨by decide, by decide, by decide, by decide, by decide,
    (options_clamped_and_fallback c8Raw).1 95 (by decide),
    (options_clamped_and_fallback c8Raw).2.2.2.2.2 c8Env "uploads/optimized_a.jpg" c8Rec rfl⟩

/-- C9: a sweep removes exactly the regular files whose age strictly
exceeds `max_age` and whose stat/remove calls succeed — a failing removal
is skipped without aborting the sweep, so every other entry is still
evaluated; the removed count and the surviving directory contents are the
corresponding filter of the listing. -/
theorem cleanup_sweep_spec (max_age : ℚ) (files : List FileEntry) :
    (cleanup_old_files max_age files).2 =
      (files.filter (sweepRemoves max_age)).length ∧
    (cleanup_old_files max_age files).1 =
      files.filter (fun e => !sweepRemoves max_age e) := by
  induction files with
  | nil => simp [cleanup_old_files]
  | cons e rest ih =>
      obtain ⟨ih1, ih2⟩ := ih
      simp only [cleanup_old_files]
      rcases hc : cleanup_old_files max_age rest with ⟨kept, n⟩
      rw [hc] at ih1 ih2
      by_cases h1 : e.isDir = true <;>
        by_cases h2 : e.statFail = true <;>
        by_cases h3 : max_age < e.age <;>
        by_cases h4 : e.removeFail = true <;>
        (try simp_all [sweepRemoves, List.filter_cons, h1, h2, h3, h4])
      all_goals rw [if_neg (not_lt.mpr h3)]
      all_goals simp

end PixelCraft
